import Mathlib

/-!
Shallow embedding of the job pipeline of `translateapp/manga_translator_service.py`
(class `MangaTranslatorService`) together with the pieces of `runindir.py` it calls.

The filesystem is modelled as a pair of oracles (`pathExists`, `listdir`); the
service's pure decision logic (work detection, queue routing, archive validation,
extraction phase, post-run verification, progress estimation, status snapshots)
is translated function by function from the Python source.  Python string
primitives (`str.lower`, `str.endswith`, `str.split`, `str.rstrip`) are modelled
at the character-list level so that all definitions evaluate inside the kernel.
Machine floats of the source (`progress = count / total * 100`) are modelled
over ℚ.
-/

namespace MangaTranslator

/-- A chapter as used by the service.  `number` stands for the string rendering of
the Python `chapter.number` float as it appears in path f-strings
(`f"chapter_\x7bchapter.number\x7d"`). -/
structure Chapter where
  number : String
deriving DecidableEq, Repr

/-- The part of `Manga` the pipeline reads: its source URL. -/
structure Manga where
  url : String
deriving DecidableEq, Repr

/-- Filesystem oracle: `pathExists` models `os.path.exists`, `listdir` models
`os.listdir` (the names found in a directory). -/
structure FileSys where
  pathExists : String → Bool
  listdir : String → List String

/-- `os.path.join` restricted to the relative components the service builds. -/
def osJoin (a b : String) : String := a ++ "/" ++ b

/-- Python `s.lower()` at the character level. -/
def lowerChars (s : String) : List Char := s.data.map Char.toLower

/-- Python `s.lower().endswith(suffix)` for an already-lowercase `suffix`. -/
def endsWithLower (s : String) (suffix : String) : Bool :=
  suffix.data.isSuffixOf (lowerChars s)

/-- The recognized-image test used throughout the service:
`f.lower().endswith((".jpg", ".png", ".jpeg"))`. -/
def isImageFile (f : String) : Bool :=
  endsWithLower f ".jpg" || endsWithLower f ".png" || endsWithLower f ".jpeg"

/-- The archive-validation test of `_download_chapter` (line 231):
`name.lower().endswith((".jpg", ".png", ".jpeg", ".webp"))`. -/
def isArchiveImageEntry (f : String) : Bool :=
  endsWithLower f ".jpg" || endsWithLower f ".png" ||
    endsWithLower f ".jpeg" || endsWithLower f ".webp"

/-- The recognized image files of a directory listing. -/
def imageFiles (listing : List String) : List String :=
  listing.filter (fun f => isImageFile f)

/-- Python `s.split("/")` at the character level (`acc` holds the reversed
current component). -/
def splitSlash : List Char → List Char → List (List Char)
  | [], acc => [acc.reverse]
  | c :: rest, acc =>
    if c = '/' then acc.reverse :: splitSlash rest []
    else splitSlash rest (c :: acc)

/-- `MangaTranslatorService.get_manga_id`: local manga keep the URL as id; online
manga strip trailing slashes (`url.rstrip("/")`) and take the last
`/`-separated component (`url.split("/")[-1]`). -/
def get_manga_id (url : String) : String :=
  if "http".data.isPrefixOf url.data then
    let u := (url.data.reverse.dropWhile (fun c => c = '/')).reverse
    String.mk ((splitSlash u []).getLastD [])
  else url

/-- Path of the raw chapter directory `<base>/<manga_id>/chapter_<n>`. -/
def chapterDirPath (base mangaId num : String) : String :=
  osJoin (osJoin base mangaId) ("chapter_" ++ num)

/-- Path of the translated directory `<base>/<manga_id>/chapter_<n>_translated`. -/
def translatedDirPath (base mangaId num : String) : String :=
  osJoin (osJoin base mangaId) ("chapter_" ++ num ++ "_translated")

/-- Path of the chapter archive `<base>/<manga_id>/chapter_<n>.zip`. -/
def chapterZipPath (base mangaId num : String) : String :=
  osJoin (osJoin base mangaId) ("chapter_" ++ num ++ ".zip")

/-- `MangaTranslatorService.is_downloaded`: the chapter zip exists, or the raw
chapter directory exists and is non-empty. -/
def is_downloaded (fs : FileSys) (base : String) (chapter : Chapter) (manga_url : String) : Bool :=
  let manga_id := get_manga_id manga_url
  let chapter_zip := chapterZipPath base manga_id chapter.number
  let chapter_dir := chapterDirPath base manga_id chapter.number
  fs.pathExists chapter_zip ||
    (fs.pathExists chapter_dir && decide ((fs.listdir chapter_dir).length > 0))

/-- `MangaTranslatorService.is_translated` (lines 144-161): false if either
directory is missing; otherwise the translated directory must hold a positive
number of recognized image files equal to the raw directory's count. -/
def is_translated (fs : FileSys) (base : String) (chapter : Chapter) (manga_url : String) : Bool :=
  let manga_id := get_manga_id manga_url
  let chapter_dir := chapterDirPath base manga_id chapter.number
  let translated_dir := translatedDirPath base manga_id chapter.number
  if !(fs.pathExists translated_dir) || !(fs.pathExists chapter_dir) then
    false
  else
    let chapter_files := imageFiles (fs.listdir chapter_dir)
    let translated_files := imageFiles (fs.listdir translated_dir)
    decide (translated_files.length > 0) && translated_files.length == chapter_files.length

/-- C1: `is_translated` is true iff the translated directory exists, the raw
chapter directory exists, the translated recognized-image count is positive, and
it equals the raw recognized-image count; so it is false whenever the counts
differ, in particular when the translated count is zero. -/
theorem C1_is_translated_characterization (fs : FileSys) (base : String)
    (ch : Chapter) (url : String) :
    is_translated fs base ch url = true ↔
      (fs.pathExists (translatedDirPath base (get_manga_id url) ch.number) = true ∧
       fs.pathExists (chapterDirPath base (get_manga_id url) ch.number) = true ∧
       0 < (imageFiles (fs.listdir (translatedDirPath base (get_manga_id url) ch.number))).length ∧
       (imageFiles (fs.listdir (translatedDirPath base (get_manga_id url) ch.number))).length =
         (imageFiles (fs.listdir (chapterDirPath base (get_manga_id url) ch.number))).length) := by
  unfold is_translated
  by_cases h1 : fs.pathExists (translatedDirPath base (get_manga_id url) ch.number) = true <;>
    by_cases h2 : fs.pathExists (chapterDirPath base (get_manga_id url) ch.number) = true <;>
      simp [h1, h2, Nat.lt_iff_add_one_le, beq_iff_eq]

/-- A queued unit of work: both `DownloadTask` and `TranslationTask` in the
source are identical `{chapter, manga}` records. -/
structure Task where
  chapter : Chapter
  manga : Manga
deriving DecidableEq, Repr

/-- Outcome of `translation_worker` (the closure inside `_translate_chapter`,
lines 434-472) observed after `run_translation` has returned. -/
structure WorkerOutcome where
  runInvocations : Nat
  completedAppended : Bool
  completionEmitted : Option String
  errorEmitted : Bool
deriving DecidableEq, Repr

/-- `translation_worker` after `run_translation` returns: count the recognized
image files now in the translated directory; a count different from
`total_files` raises (caught: `translation_error` is emitted, nothing is
appended); on a matching count a `CompletedTranslation` record is appended and
`translation_completed` is emitted with the translated directory.
`run_translation` is invoked exactly once either way. -/
def translation_worker (outputListing : List String) (total_files : Nat)
    (translated_dir : String) : WorkerOutcome :=
  let translated_files := imageFiles outputListing
  if translated_files.length ≠ total_files then
    { runInvocations := 1, completedAppended := false,
      completionEmitted := none, errorEmitted := true }
  else
    { runInvocations := 1, completedAppended := true,
      completionEmitted := some translated_dir, errorEmitted := false }

/-- C3: after the external command returns, a `CompletedTranslation` record is
appended and the output path emitted exactly when the output recognized-image
count equals the input count; a mismatch emits the error signal instead; the
external tool is invoked exactly once (no automatic re-invocation). -/
theorem C3_output_count_verification (out : List String) (total : Nat) (dir : String) :
    ((translation_worker out total dir).completedAppended = true ∧
       (translation_worker out total dir).completionEmitted = some dir ↔
      (imageFiles out).length = total) ∧
    ((translation_worker out total dir).errorEmitted = true ↔
      (imageFiles out).length ≠ total) ∧
    (translation_worker out total dir).runInvocations = 1 := by
  unfold translation_worker
  by_cases h : (imageFiles out).length = total <;> simp [h]

/-- The published queue-status snapshot (`QueueStatus` dataclass). -/
structure QueueStatusModel where
  current_task : Option Task
  current_progress : ℚ
  tasks_remaining : Nat
  queued_chapters : List Task
deriving DecidableEq, Repr

/-- The mutable service state that `_emit_queue_status` reads under
`_download_lock` and `_translation_lock`: both queue contents (in queue order)
and the two in-flight task slots. -/
structure ServiceState where
  downloadQueue : List Task
  translationQueue : List Task
  currentDownload : Option Task
  currentTranslation : Option Task
  currentProgress : ℚ
deriving DecidableEq, Repr

/-- `MangaTranslatorService._emit_queue_status` (lines 542-558) as the sequence
of reads the source performs, in program order: first `list(queue.queue)` for
both queues (lines 546-547, state `sQueues`), then the `current_translation or
current_download` read and the progress read (lines 551-552, state `sCurrent`),
then `qsize() + qsize()` (line 553, state `sSizes`).  The emitter holds
`_download_lock` and `_translation_lock` throughout, but the queue workers
dequeue (lines 304, 356) and write `current_download`/`current_translation`
(lines 305, 322, 357, 371) WITHOUT acquiring those locks, so the underlying
state can change between the reads: each read sees its own state argument. -/
def emit_queue_status_reads (sQueues sCurrent sSizes : ServiceState) : QueueStatusModel :=
  let download_items := sQueues.downloadQueue
  let translation_items := sQueues.translationQueue
  { current_task :=
      match sCurrent.currentTranslation with
      | some t => some t
      | none => sCurrent.currentDownload
    current_progress := sCurrent.currentProgress
    tasks_remaining := sSizes.downloadQueue.length + sSizes.translationQueue.length
    queued_chapters := download_items ++ translation_items }

/-- The state mutations the queue workers perform without acquiring
`_download_lock`/`_translation_lock`: popping the head of a queue while setting
the matching current-task slot (`queue.get` at lines 304/356 followed by the
`current_*` assignment at 305/357), and clearing a current-task slot when a
task finishes (lines 322 and 371-372).  Any of these can interleave the
emitter's read sequence even while it holds both locks. -/
inductive WorkerStep : ServiceState → ServiceState → Prop
  | dequeueDownload (s : ServiceState) (t : Task) (rest : List Task)
      (h : s.downloadQueue = t :: rest) :
      WorkerStep s { s with downloadQueue := rest, currentDownload := some t }
  | dequeueTranslation (s : ServiceState) (t : Task) (rest : List Task)
      (h : s.translationQueue = t :: rest) :
      WorkerStep s { s with translationQueue := rest, currentTranslation := some t }
  | finishDownload (s : ServiceState) :
      WorkerStep s { s with currentDownload := none }
  | finishTranslation (s : ServiceState) :
      WorkerStep s { s with currentTranslation := none, currentProgress := 0 }

/-- A state with one queued download task and idle workers. -/
def stateBeforeDequeue : ServiceState :=
  { downloadQueue := [⟨⟨"1"⟩, ⟨"http://host/m1"⟩⟩], translationQueue := [],
    currentDownload := none, currentTranslation := none, currentProgress := 0 }

/-- `stateBeforeDequeue` after the download worker's lock-free dequeue. -/
def stateAfterDequeue : ServiceState :=
  { downloadQueue := [], translationQueue := [],
    currentDownload := some ⟨⟨"1"⟩, ⟨"http://host/m1"⟩⟩, currentTranslation := none,
    currentProgress := 0 }

/-- C10 counterexample: the download worker's dequeue is a legal lock-bypassing
step, and when it lands between the emitter's `list(queue.queue)` reads and its
`qsize()` reads, the published snapshot has `queued_chapters` of length 1 but
`tasks_remaining = 0` — the fields do not describe one consistent instant. -/
theorem C10_counterexample_torn_snapshot :
    WorkerStep stateBeforeDequeue stateAfterDequeue ∧
    (emit_queue_status_reads stateBeforeDequeue stateAfterDequeue
        stateAfterDequeue).queued_chapters.length = 1 ∧
    (emit_queue_status_reads stateBeforeDequeue stateAfterDequeue
        stateAfterDequeue).tasks_remaining = 0 ∧
    ¬ (emit_queue_status_reads stateBeforeDequeue stateAfterDequeue
        stateAfterDequeue).tasks_remaining =
      (emit_queue_status_reads stateBeforeDequeue stateAfterDequeue
        stateAfterDequeue).queued_chapters.length := by
  refine ⟨?_, by decide, by decide, by decide⟩
  exact WorkerStep.dequeueDownload stateBeforeDequeue ⟨⟨"1"⟩, ⟨"http://host/m1"⟩⟩ [] rfl

/-- C10 amended: when no lock-bypassing worker mutation interleaves the
emitter's reads — all three reads observe the same state — the published
snapshot is consistent: `tasks_remaining` equals the length of
`queued_chapters`, `queued_chapters` is the download queue followed by the
translation queue in order, and `current_task` is the in-flight translation
task, else the in-flight download task, else `none`.  The locks alone do not
guarantee this instant, since worker dequeues and current-task writes bypass
them. -/
theorem C10_queue_status_consistent_quiescent (s : ServiceState) :
    (emit_queue_status_reads s s s).tasks_remaining =
      (emit_queue_status_reads s s s).queued_chapters.length ∧
    (emit_queue_status_reads s s s).queued_chapters =
      s.downloadQueue ++ s.translationQueue ∧
    (emit_queue_status_reads s s s).current_task =
      (match s.currentTranslation with
       | some t => some t
       | none => s.currentDownload) := by
  refine ⟨?_, rfl, rfl⟩
  simp [emit_queue_status_reads]

/-- The two work queues of the service (`download_queue`, `translation_queue`),
in queue order. -/
structure Queues where
  downloadQueue : List Task
  translationQueue : List Task
deriving DecidableEq, Repr

/-- `MangaTranslatorService._add_to_translation_queue`: put the task at the back
of the translation queue. -/
def add_to_translation_queue (q : Queues) (t : Task) : Queues :=
  { q with translationQueue := q.translationQueue ++ [t] }

/-- `MangaTranslatorService.start_translation` (lines 268-297): local manga go
straight to the translation queue; online manga go to the translation queue when
`is_downloaded`, else to the download queue.  There is no `is_translated` check
here. -/
def start_translation (fs : FileSys) (base : String) (chapter : Chapter)
    (manga : Manga) (q : Queues) : Queues :=
  if !("http".data.isPrefixOf manga.url.data) then
    add_to_translation_queue q ⟨chapter, manga⟩
  else if is_downloaded fs base chapter manga.url then
    add_to_translation_queue q ⟨chapter, manga⟩
  else
    { q with downloadQueue := q.downloadQueue ++ [⟨chapter, manga⟩] }

/-- Whether `_process_translation_queue` (lines 362-367) invokes
`_translate_chapter` for a dequeued task: it does exactly when the task is not
already translated. -/
def translation_invoked_for (fs : FileSys) (base : String) (t : Task) : Bool :=
  !(is_translated fs base t.chapter t.manga.url)

/-- A filesystem in which every path exists and every directory holds exactly
one recognized image file, making any chapter both downloaded and translated. -/
def fsAllTranslated : FileSys :=
  { pathExists := fun _ => true, listdir := fun _ => ["001.jpg"] }

/-- C4 counterexample: a chapter that is already translated is NOT dropped at
submission: `start_translation` still enqueues it (to the translation queue),
so submission is not a no-op. -/
theorem C4_counterexample_submission_enqueues :
    is_translated fsAllTranslated "root" ⟨"1"⟩ "http://host/m1" = true ∧
    (start_translation fsAllTranslated "root" ⟨"1"⟩ ⟨"http://host/m1"⟩
        ⟨[], []⟩).translationQueue.length = 1 := by
  decide

/-- C4 amended: for a manga with a remote URL, submission always enqueues —
to the translation queue when `is_downloaded`, else to the download queue;
the already-translated check happens only when the task is dequeued, where it
suppresses the `_translate_chapter` invocation. -/
theorem C4_routing_amended (fs : FileSys) (base : String) (ch : Chapter)
    (m : Manga) (q : Queues) (hremote : "http".data.isPrefixOf m.url.data = true) :
    (is_downloaded fs base ch m.url = true →
       start_translation fs base ch m q = add_to_translation_queue q ⟨ch, m⟩) ∧
    (is_downloaded fs base ch m.url = false →
       start_translation fs base ch m q =
         { q with downloadQueue := q.downloadQueue ++ [⟨ch, m⟩] }) ∧
    (is_translated fs base ch m.url = true →
       translation_invoked_for fs base ⟨ch, m⟩ = false) := by
  refine ⟨fun hd => ?_, fun hd => ?_, fun ht => ?_⟩
  · simp [start_translation, hremote, hd]
  · simp [start_translation, hremote, hd]
  · simp [translation_invoked_for, ht]

/-- C4 witness: the amended routing at a concrete already-translated chapter. -/
theorem C4_routing_amended_witness :
    (is_downloaded fsAllTranslated "root" ⟨"1"⟩ "http://host/m1" = true →
       start_translation fsAllTranslated "root" ⟨"1"⟩ ⟨"http://host/m1"⟩ ⟨[], []⟩ =
         add_to_translation_queue ⟨[], []⟩ ⟨⟨"1"⟩, ⟨"http://host/m1"⟩⟩) ∧
    (is_downloaded fsAllTranslated "root" ⟨"1"⟩ "http://host/m1" = false →
       start_translation fsAllTranslated "root" ⟨"1"⟩ ⟨"http://host/m1"⟩ ⟨[], []⟩ =
         { (⟨[], []⟩ : Queues) with
             downloadQueue := ([] : List Task) ++ [⟨⟨"1"⟩, ⟨"http://host/m1"⟩⟩] }) ∧
    (is_translated fsAllTranslated "root" ⟨"1"⟩ "http://host/m1" = true →
       translation_invoked_for fsAllTranslated "root" ⟨⟨"1"⟩, ⟨"http://host/m1"⟩⟩ = false) :=
  C4_routing_amended fsAllTranslated "root" ⟨"1"⟩ ⟨"http://host/m1"⟩ ⟨[], []⟩ (by decide)

/-- Outcome of the direct-download branch of `_download_chapter`
(lines 199-249): whether control reaches the HTML fallback
(`_download_from_html`), whether the downloaded file was removed, and what the
branch returns when it succeeds. -/
structure DirectOutcome where
  htmlFallback : Bool
  fileDeleted : Bool
  result : Option String
deriving DecidableEq, Repr

/-- The direct-download branch of `_download_chapter`.  `hasDownloadUrl` is
`chapter.download_url` being non-empty; `fetchOk` is the HTTP request and body
write succeeding; `zipValid` is `zipfile.ZipFile` accepting the file; `entries`
is `zf.namelist()`.  A valid archive with at least one recognized entry returns
`file_path`; a valid archive with none falls through to the HTML fallback with
the file left in place; `BadZipFile` removes the file, raises `ValueError`, and
the catch at line 243 continues to the HTML fallback. -/
def download_chapter_direct (hasDownloadUrl fetchOk zipValid : Bool)
    (entries : List String) (file_path : String) : DirectOutcome :=
  if !hasDownloadUrl then
    { htmlFallback := true, fileDeleted := false, result := none }
  else if !fetchOk then
    { htmlFallback := true, fileDeleted := false, result := none }
  else if zipValid then
    if entries.any (fun n => isArchiveImageEntry n) then
      { htmlFallback := false, fileDeleted := false, result := some file_path }
    else
      { htmlFallback := true, fileDeleted := false, result := none }
  else
    { htmlFallback := true, fileDeleted := true, result := none }

/-- C5 counterexample: a valid zip containing only `readme.txt` does send the
fetch to the HTML fallback, but the file is NOT discarded (deletion happens only
in the `BadZipFile` branch), refuting the "discards that file" half of the
claim. -/
theorem C5_counterexample_file_not_deleted :
    (download_chapter_direct true true true ["readme.txt"] "root/m1/chapter_1.zip").htmlFallback
        = true ∧
    (download_chapter_direct true true true ["readme.txt"] "root/m1/chapter_1.zip").fileDeleted
        = false := by
  decide

/-- C5 amended: a direct download that yields a valid archive with zero
recognized entries proceeds to the HTML page-scrape fallback without failing the
job — but the file is left in place rather than discarded (only the
invalid-archive branch deletes it). -/
theorem C5_zero_image_zip_falls_back (entries : List String) (p : String)
    (hnoimg : entries.any (fun n => isArchiveImageEntry n) = false) :
    download_chapter_direct true true true entries p =
      { htmlFallback := true, fileDeleted := false, result := none } ∧
    download_chapter_direct true true false entries p =
      { htmlFallback := true, fileDeleted := true, result := none } := by
  constructor
  · simp [download_chapter_direct, hnoimg]
  · simp [download_chapter_direct]

/-- C5 witness: the amended behaviour at the readme-only zip. -/
theorem C5_zero_image_zip_falls_back_witness :
    download_chapter_direct true true true ["readme.txt"] "p" =
      { htmlFallback := true, fileDeleted := false, result := none } ∧
    download_chapter_direct true true false ["readme.txt"] "p" =
      { htmlFallback := true, fileDeleted := true, result := none } :=
  C5_zero_image_zip_falls_back ["readme.txt"] "p" (by decide)

/-- Outcome of the extraction phase of `_translate_chapter` (lines 399-431):
how many times `extract_chapter` ran, how many times the archive was
re-fetched, whether control reached the `run_translation` invocation, and
whether the job errored before it. -/
structure ExtractPhase where
  extractAttempts : Nat
  refetchCount : Nat
  runInvoked : Bool
  errored : Bool
deriving DecidableEq, Repr

/-- The tail of the extraction phase: list the chapter directory, filter
recognized images (the code also sorts, which affects no count), raise
`"No image files found in chapter directory"` on an empty result, otherwise
proceed to the `run_translation` invocation. -/
def extract_finish (attempts : Nat) (listing : List String) : ExtractPhase :=
  let chapter_files := imageFiles listing
  if chapter_files.length = 0 then
    { extractAttempts := attempts, refetchCount := 0, runInvoked := false, errored := true }
  else
    { extractAttempts := attempts, refetchCount := 0, runInvoked := true, errored := false }

/-- The extraction phase of `_translate_chapter`: if the chapter directory is
missing it is created empty; extraction is needed when the directory is missing
or empty; if needed and the zip exists, `extract_chapter` runs ONCE — failure
raises `"Failed to extract chapter"` immediately (no deletion, no re-fetch, no
retry).  `extract_chapter` (`zipfile.extractall`) writes the archive entries
into the directory unchanged, so a successful extraction makes the listing
equal to `zipEntries`. -/
def translate_extract_phase (chapterDirExists zipExists extractOk : Bool)
    (listing zipEntries : List String) : ExtractPhase :=
  let listing0 := if chapterDirExists then listing else []
  let extraction_needed := !chapterDirExists || listing0.isEmpty
  if extraction_needed && zipExists then
    if extractOk then extract_finish 1 zipEntries
    else { extractAttempts := 1, refetchCount := 0, runInvoked := false, errored := true }
  else extract_finish 0 listing0

/-- C2 counterexample: a missing raw directory with a zip whose extraction
fails produces exactly ONE extraction attempt (not 3) and zero re-fetches; the
job errors and the external command is never invoked. -/
theorem C2_counterexample_single_attempt :
    (translate_extract_phase false true false [] []).extractAttempts = 1 ∧
    (translate_extract_phase false true false [] []).refetchCount = 0 ∧
    (translate_extract_phase false true false [] []).errored = true ∧
    (translate_extract_phase false true false [] []).runInvoked = false ∧
    ¬ (translate_extract_phase false true false [] []).extractAttempts = 3 := by
  decide

/-- C2 amended: when the raw directory is missing or empty and the archive
exists, a failing extraction is attempted exactly once; the partial archive is
not deleted and not re-fetched, the job fails at once (generic
`"Failed to extract chapter"`), and `run_translation` is never invoked. -/
theorem C2_extraction_single_try (cde : Bool) (listing zipEntries : List String)
    (hneed : (!cde || (if cde then listing else []).isEmpty) = true) :
    translate_extract_phase cde true false listing zipEntries =
      { extractAttempts := 1, refetchCount := 0, runInvoked := false, errored := true } := by
  unfold translate_extract_phase
  simp [hneed]

/-- C2 witness: the amended single-attempt behaviour on a missing directory. -/
theorem C2_extraction_single_try_witness :
    translate_extract_phase false true false [] [] =
      { extractAttempts := 1, refetchCount := 0, runInvoked := false, errored := true } :=
  C2_extraction_single_try false [] [] (by decide)

/-- C8: an archive whose entries are all `.webp` passes the download-time
archive validation, yet no normalization to `.jpg` exists anywhere in the
pipeline: after extraction the recognized-image input set is EMPTY, so the
translation step errors out (`"No image files found in chapter directory"`)
without invoking the external command — the code diverges from the claimed
webp normalization. -/
theorem C8_webp_accepted_but_never_normalized :
    (["001.webp", "002.webp"].any (fun n => isArchiveImageEntry n)) = true ∧
    (download_chapter_direct true true true ["001.webp", "002.webp"] "p").result = some "p" ∧
    imageFiles ["001.webp", "002.webp"] = [] ∧
    (translate_extract_phase false true true [] ["001.webp", "002.webp"]).runInvoked = false ∧
    (translate_extract_phase false true true [] ["001.webp", "002.webp"]).errored = true := by
  decide

/-- PIL color modes relevant to `_download_from_html` (lines 692-697). -/
inductive ColorMode
  | RGB
  | RGBA
  | LA
  | P
  | L
  | CMYK
deriving DecidableEq, Repr

/-- The color-mode normalization of `_download_from_html`: `RGBA`/`LA` images
are pasted onto a white RGB background through their alpha mask; any other
non-RGB mode goes through `img.convert("RGB")`; RGB stays. -/
def normalize_mode : ColorMode → ColorMode
  | .RGBA => .RGB
  | .LA => .RGB
  | .RGB => .RGB
  | _ => .RGB

/-- One scraped image URL: whether its download-and-decode succeeded and the
decoded color mode. -/
structure FetchedImage where
  ok : Bool
  mode : ColorMode
deriving DecidableEq, Repr

/-- Python `f"\x7bidx:03d\x7d"`: decimal rendering zero-padded to width 3. -/
def pad3 (n : Nat) : String :=
  let s := toString n
  if 3 ≤ s.length then s else String.mk (List.replicate (3 - s.length) '0' ++ s.data)

/-- The per-image loop of `_download_from_html` (`for idx, img_url in
enumerate(image_urls, 1)`): a success saves `f"\x7bidx:03d\x7d.jpg"` in the
normalized mode and is collected; a failure logs and continues, leaving a gap
in the numbering. -/
def html_collect : Nat → List FetchedImage → List (String × ColorMode)
  | _, [] => []
  | idx, img :: rest =>
    if img.ok then (pad3 idx ++ ".jpg", normalize_mode img.mode) :: html_collect (idx + 1) rest
    else html_collect (idx + 1) rest

/-- The number of successfully downloaded images. -/
def countSuccess (imgs : List FetchedImage) : Nat :=
  (imgs.filter (fun i => i.ok)).length

/-- Outcome of `_download_from_html`: the returned path (if any), whether
`download_error` fired, whether `download_completed` fired, and the entries
written into the created zip (name and color mode). -/
structure HtmlOutcome where
  result : Option String
  errorEmitted : Bool
  completedEmitted : Bool
  zipEntries : List (String × ColorMode)
deriving DecidableEq, Repr

/-- `MangaTranslatorService._download_from_html` (lines 660-732): an empty
scraped URL list raises `"No images found on chapter page"`; zero successful
downloads raises `"No images were successfully downloaded"`; both are caught by
the outer handler which emits `download_error` and returns `None`.  Otherwise
every successfully fetched image is written into
`<base>/<manga_id>/chapter_<n>.zip`, `download_completed` fires, and the zip
path is returned. -/
def download_from_html (base manga_id chapterNumber : String)
    (imgs : List FetchedImage) : HtmlOutcome :=
  if imgs.isEmpty then
    { result := none, errorEmitted := true, completedEmitted := false, zipEntries := [] }
  else
    let downloaded_images := html_collect 1 imgs
    if downloaded_images.isEmpty then
      { result := none, errorEmitted := true, completedEmitted := false, zipEntries := [] }
    else
      { result := some (chapterZipPath base manga_id chapterNumber),
        errorEmitted := false, completedEmitted := true, zipEntries := downloaded_images }

/-- Enumerate a list starting at `i` (Python `enumerate(xs, i)`). -/
def enumFrom : Nat → List α → List (Nat × α)
  | _, [] => []
  | i, a :: rest => (i, a) :: enumFrom (i + 1) rest

/-- Modelled from the spec sentence of C6, for refinement comparison: the
packaged entries are exactly the successfully fetched images, each normalized to
RGB JPEG and named by its zero-padded 1-based sequence number. -/
def specC6_expectedEntries (imgs : List FetchedImage) : List (String × ColorMode) :=
  ((enumFrom 1 imgs).filter (fun p => p.2.ok)).map
    (fun p => (pad3 p.1 ++ ".jpg", ColorMode.RGB))

/-- Every branch of the normalization lands on RGB. -/
theorem normalize_mode_RGB (m : ColorMode) : normalize_mode m = ColorMode.RGB := by
  cases m <;> rfl

/-- The collected images are the spec-side expected entries, for any starting
index. -/
theorem html_collect_eq_spec (imgs : List FetchedImage) :
    ∀ i, html_collect i imgs =
      ((enumFrom i imgs).filter (fun p => p.2.ok)).map
        (fun p => (pad3 p.1 ++ ".jpg", ColorMode.RGB)) := by
  induction imgs with
  | nil => intro i; rfl
  | cons img rest ih =>
    intro i
    by_cases h : img.ok
    · simp [html_collect, enumFrom, h, ih (i + 1), normalize_mode_RGB]
    · simp [html_collect, enumFrom, h, ih (i + 1)]

/-- The number of collected images is the number of successes. -/
theorem html_collect_length (imgs : List FetchedImage) :
    ∀ i, (html_collect i imgs).length = countSuccess imgs := by
  induction imgs with
  | nil => intro i; rfl
  | cons img rest ih =>
    intro i
    by_cases h : img.ok <;> simp [html_collect, countSuccess, h, ih (i + 1)]

/-- C6: the HTML fallback fails the job (error signal, no path) exactly when
zero images were successfully downloaded; it returns the canonical chapter zip
path with the completion signal exactly when at least one succeeded; and the
zip contains precisely the successfully fetched images, each normalized to RGB
JPEG and named with the zero-padded sequence number — even when some individual
downloads failed. -/
theorem C6_html_fallback_characterization (base manga_id num : String)
    (imgs : List FetchedImage) :
    ((download_from_html base manga_id num imgs).result = none ∧
       (download_from_html base manga_id num imgs).errorEmitted = true ↔
      countSuccess imgs = 0) ∧
    ((download_from_html base manga_id num imgs).result =
         some (chapterZipPath base manga_id num) ∧
       (download_from_html base manga_id num imgs).completedEmitted = true ↔
      0 < countSuccess imgs) ∧
    (download_from_html base manga_id num imgs).zipEntries =
      specC6_expectedEntries imgs := by
  have hlen := html_collect_length imgs 1
  have hspec := html_collect_eq_spec imgs 1
  unfold download_from_html specC6_expectedEntries
  by_cases hempty : imgs = []
  · subst hempty
    simp [countSuccess, enumFrom]
  · by_cases hzero : countSuccess imgs = 0
    · have hnil : html_collect 1 imgs = [] := by
        have := hlen
        rw [hzero] at this
        exact List.length_eq_zero.mp this
      simp [hempty, hnil, hzero, ← hspec, List.isEmpty_iff]
    · have hne : ¬ html_collect 1 imgs = [] := by
        intro hcon
        rw [hcon] at hlen
        exact hzero hlen.symm
      simp [hempty, hne, hzero, ← hspec, List.isEmpty_iff, Nat.pos_of_ne_zero hzero]

/-- `progress = (translated_count / total_files) * 100` of
`_monitor_translation_progress`, over ℚ. -/
def progressOf (total count : Nat) : ℚ :=
  ((count : ℚ) / (total : ℚ)) * 100

/-- Outcome of `_monitor_translation_progress`: the published progress values in
order, whether the loop terminated through the exception handler, and whether
the monitor emitted any job error (its handler only logs, so never). -/
structure MonitorOutcome where
  emitted : List ℚ
  brokeEarly : Bool
  jobErrorEmitted : Bool
deriving DecidableEq, Repr

/-- `MangaTranslatorService._monitor_translation_progress` (lines 489-517) over
a poll schedule: each loop iteration executed while `translation_running` holds
is `some c` when listing the translated directory succeeded with a
recognized-image count of `c`, and `none` when it raised.  A successful poll
publishes its progress and the loop sleeps 1 s; a raising poll is logged and the
loop BREAKS, executing no further iteration.  The end of the schedule is the
`translation_running` flag being cleared. -/
def monitor_loop (total : Nat) : List (Option Nat) → MonitorOutcome
  | [] => { emitted := [], brokeEarly := false, jobErrorEmitted := false }
  | none :: _ => { emitted := [], brokeEarly := true, jobErrorEmitted := false }
  | some c :: rest =>
    let r := monitor_loop total rest
    { emitted := progressOf total c :: r.emitted,
      brokeEarly := r.brokeEarly, jobErrorEmitted := r.jobErrorEmitted }

/-- An error-free poll schedule publishes every sampled count and ends with the
flag, not the handler. -/
theorem monitor_loop_ok (total : Nat) (cs : List Nat) :
    monitor_loop total (cs.map some) =
      { emitted := cs.map (progressOf total), brokeEarly := false,
        jobErrorEmitted := false } := by
  induction cs with
  | nil => rfl
  | cons c rest ih => simp [monitor_loop, ih]

/-- A schedule that raises after an error-free prefix publishes exactly the
prefix, then stops: the iterations after the error never run. -/
theorem monitor_loop_break (total : Nat) (cs : List Nat) (tail : List (Option Nat)) :
    monitor_loop total (cs.map some ++ none :: tail) =
      { emitted := cs.map (progressOf total), brokeEarly := true,
        jobErrorEmitted := false } := by
  induction cs with
  | nil => rfl
  | cons c rest ih => simp [monitor_loop, ih]

/-- C7 counterexample: with two input files, the schedule "first poll raises,
second poll would read the full count" publishes nothing and terminates at the
first error — the errored poll is not skipped-and-continued, the loop breaks,
so the claimed continuation (which would publish 100) is refuted.  The job
itself does not fail. -/
theorem C7_counterexample_loop_breaks :
    (monitor_loop 2 [none, some 2]).emitted = [] ∧
    (monitor_loop 2 [none, some 2]).brokeEarly = true ∧
    (monitor_loop 2 [none, some 2]).jobErrorEmitted = false ∧
    ¬ (monitor_loop 2 [none, some 2]).emitted = [100] := by
  decide

/-- C7 amended: the progress estimator never errors the job (its handler only
logs), but an I/O error during a poll TERMINATES the polling loop rather than
skipping that poll and continuing: all polls after the first error are never
executed, while an error-free schedule keeps polling until the translation
invocation returns. -/
theorem C7_monitor_error_behaviour (total : Nat) (cs : List Nat)
    (tail : List (Option Nat)) :
    (monitor_loop total (cs.map some ++ none :: tail)).jobErrorEmitted = false ∧
    (monitor_loop total (cs.map some ++ none :: tail)).emitted =
      cs.map (progressOf total) ∧
    (monitor_loop total (cs.map some ++ none :: tail)).brokeEarly = true ∧
    (monitor_loop total (cs.map some)).emitted = cs.map (progressOf total) ∧
    (monitor_loop total (cs.map some)).brokeEarly = false := by
  rw [monitor_loop_break, monitor_loop_ok]
  exact ⟨rfl, rfl, rfl, rfl, rfl⟩

/-- C9 counterexample: a successful translation of N = 2 images (the worker's
final count check passes) in which the monitor's only poll observed 1 file and
the `translation_running` flag was cleared during the following sleep: the
published sequence is [50], so the final published value before the run returns
is 50, not 100. -/
theorem C9_counterexample_final_below_100 :
    (translation_worker ["001.jpg", "002.jpg"] 2 "out").completedAppended = true ∧
    (monitor_loop 2 [some 1]).emitted = [50] ∧
    (monitor_loop 2 [some 1]).emitted.getLast? = some 50 ∧
    ¬ (monitor_loop 2 [some 1]).emitted.getLast? = some 100 := by
  have h : progressOf 2 1 = 50 := by norm_num [progressOf]
  refine ⟨by decide, ?_, ?_, ?_⟩ <;> norm_num [monitor_loop, h]

/-- Progress is monotone in the observed count. -/
theorem progressOf_mono (total : Nat) (hpos : 0 < total) :
    ∀ a b : Nat, a ≤ b → progressOf total a ≤ progressOf total b := by
  intro a b hab
  unfold progressOf
  have ht : (0 : ℚ) < (total : ℚ) := by exact_mod_cast hpos
  have h1 : ((a : ℚ) / (total : ℚ)) ≤ ((b : ℚ) / (total : ℚ)) := by
    apply div_le_div_of_nonneg_right ?_ ht.le
    exact_mod_cast hab
  nlinarith

/-- Progress from a count bounded by the total is at most 100. -/
theorem progressOf_le_100 (total : Nat) (hpos : 0 < total) :
    ∀ c : Nat, c ≤ total → progressOf total c ≤ 100 := by
  intro c hc
  unfold progressOf
  have ht : (0 : ℚ) < (total : ℚ) := by exact_mod_cast hpos
  have h1 : ((c : ℚ) / (total : ℚ)) ≤ 1 := by
    rw [div_le_one ht]
    exact_mod_cast hc
  nlinarith

/-- C9 amended: when the counts observed by successive polls are non-decreasing
and bounded by the input count N (output files only accumulate), the published
progress sequence is non-decreasing and bounded by 100 — but the monitor makes
no final poll after the run returns, so the last published value need not be
100. -/
theorem C9_progress_monotone (total : Nat) (counts : List Nat)
    (hmono : List.Chain' (· ≤ ·) counts) (hle : ∀ c ∈ counts, c ≤ total)
    (hpos : 0 < total) :
    List.Chain' (· ≤ ·) ((monitor_loop total (counts.map some)).emitted) ∧
    ∀ q ∈ (monitor_loop total (counts.map some)).emitted, q ≤ 100 := by
  rw [monitor_loop_ok]
  constructor
  · rw [List.chain'_map]
    exact List.Chain'.imp (fun a b hab => progressOf_mono total hpos a b hab) hmono
  · intro q hq
    rcases List.mem_map.mp hq with ⟨c, hc, rfl⟩
    exact progressOf_le_100 total hpos c (hle c hc)

/-- C9 witness: the amended monotone-bounded behaviour at counts [1, 2] of 2. -/
theorem C9_progress_monotone_witness :
    List.Chain' (· ≤ ·) ((monitor_loop 2 ([1, 2].map some)).emitted) ∧
    ∀ q ∈ (monitor_loop 2 ([1, 2].map some)).emitted, q ≤ 100 :=
  C9_progress_monotone 2 [1, 2] (by simp [List.chain'_cons]) (by simp) (by decide)

end MangaTranslator
